import Mathlib

/-!
Verification development for the media indexing and retrieval pipeline
(`mcp` package): shallow embedding of the segment-store search engine
(`media_search_engine.py`), the registry (`table_manager.py`), the
ingestion pipeline (`media_analyzer.py`, `media_tools.py`) and the
tool-dispatch layer (`tools.py`), together with theorems settling the
frozen claims about them.

Modelling conventions:
- Python floats are modelled as rationals.
- Python exceptions are modelled with `Except PyError`.
- External inference services (similarity scoring) are abstracted as
  score functions passed in as parameters.
- Python strings used as registry keys and filenames are modelled as
  `String`; filename comparison (the `max(...)` call of
  `get_table_registry`) is modelled by code-point lexicographic
  comparison on `String.data`, matching CPython string comparison.
-/

/-- Kinds of Python exception observed by the embedded code. -/
inductive PyError where
  | valueError (msg : String)
  | attributeError (msg : String)
  | indexError
  deriving DecidableEq, Repr

/-- One row of the sound-segments view (`SoundSegmentsView`): an audio
chunk with its time interval and transcript (`media_analyzer.py`,
columns `pos`, `start_time_sec`, `end_time_sec`, `segment_transcript`). -/
structure SoundRow where
  start_time_sec : ℚ
  end_time_sec : ℚ
  segment_transcript : String
  deriving Repr

/-- One row of the visual-segments view (`VisualSegmentsView`): a sampled
frame with its timestamp in milliseconds (`pos_msec`) and its generated
caption (`visual_description`). The frame images themselves are only used
through the abstract similarity functions, so they are not stored. -/
structure VisualRow where
  pos_msec : ℚ
  visual_description : String
  deriving Repr

/-- A search result record as returned by the `find_by_*` operations of
`MediaSearchEngine`: keys `begin_time`, `finish_time`, `match_score`. -/
structure ClipResult where
  begin_time : ℚ
  finish_time : ℚ
  match_score : ℚ
  deriving Repr

/-- Modelled from the spec: the ordered-query semantics of the external
pixeltable calls `select(..., match_score=s).order_by(s, asc=False)
.limit(result_count).collect()` used by every search operation of
`media_search_engine.py`. The spec contract states: results are sorted
strictly descending by similarity score with ties broken by underlying
row insertion order (stable sort), `top_k` truncates after ordering, and
`top_k <= 0` yields an empty sequence without error. `mergeSort` with the
non-strict descending comparison is a stable sort, and `Int.toNat` sends
every non-positive count to zero. -/
def orderByDescLimit {α : Type} (score : α → ℚ) (rows : List α) (result_count : ℤ) : List α :=
  (rows.mergeSort (fun a b => decide (score b ≤ score a))).take result_count.toNat

/-- Embedding of `MediaSearchEngine.find_by_speech_content`: rank the
sound segments by transcript similarity (the external embedding model is
abstracted as `similarity`), truncate to `result_count`, and project each
row to `begin_time = start_time_sec`, `finish_time = end_time_sec`,
`match_score`. -/
def find_by_speech_content (similarity : SoundRow → ℚ) (view : List SoundRow)
    (result_count : ℤ) : List ClipResult :=
  (orderByDescLimit similarity view result_count).map
    (fun record =>
      { begin_time := record.start_time_sec
        finish_time := record.end_time_sec
        match_score := similarity record })

/-- Embedding of `MediaSearchEngine.find_by_visual_content`: rank the
visual segments by image similarity against the query image (abstracted
as `similarity`), truncate, and expand each frame timestamp into a
window: `begin_time = pos_msec / 1000.0 - config.FRAME_TIME_BUFFER`,
`finish_time = pos_msec / 1000.0 + config.FRAME_TIME_BUFFER`. The
configured buffer is the parameter `frame_time_buffer` (process-level
settings loading is outside the modelled core). -/
def find_by_visual_content (similarity : VisualRow → ℚ) (view : List VisualRow)
    (result_count : ℤ) (frame_time_buffer : ℚ) : List ClipResult :=
  (orderByDescLimit similarity view result_count).map
    (fun record =>
      { begin_time := record.pos_msec / 1000 - frame_time_buffer
        finish_time := record.pos_msec / 1000 + frame_time_buffer
        match_score := similarity record })

/-- Embedding of `MediaSearchEngine.find_by_description`: identical to
`find_by_visual_content` except that rows are ranked by caption
similarity (`visual_description` column) instead of image similarity. -/
def find_by_description (similarity : VisualRow → ℚ) (view : List VisualRow)
    (result_count : ℤ) (frame_time_buffer : ℚ) : List ClipResult :=
  (orderByDescLimit similarity view result_count).map
    (fun record =>
      { begin_time := record.pos_msec / 1000 - frame_time_buffer
        finish_time := record.pos_msec / 1000 + frame_time_buffer
        match_score := similarity record })

/-- Result of `create_media_clip` (`media_tools.py`): the produced
`VideoFileClip`, identified by the destination filename and the cut
times handed to ffmpeg. -/
structure MediaClip where
  filename : String
  begin_time : ℚ
  finish_time : ℚ
  deriving Repr

/-- Embedding of `create_media_clip` (`media_tools.py`): the only
validation is `if begin_time >= finish_time: raise ValueError(...)`;
otherwise the ffmpeg subprocess is launched with `Popen` (whose
`communicate` never raises `CalledProcessError`, so the `except` branch
is dead) and the clip at `destination_path` is returned. -/
def create_media_clip (source_path : String) (begin_time finish_time : ℚ)
    (destination_path : String) : Except PyError MediaClip :=
  if finish_time ≤ begin_time then
    .error (.valueError "begin_time must be less than finish_time")
  else
    .ok { filename := destination_path, begin_time := begin_time, finish_time := finish_time }

/-- Python list indexing `l[i]`: raises `IndexError` when out of range. -/
def listIndex {α : Type} (l : List α) (i : ℕ) : Except PyError α :=
  match l.get? i with
  | some a => .ok a
  | none => .error .indexError

/-- Embedding of the confidence defaulting in
`extract_clip_from_user_query` (`tools.py` lines 52-53):
`matches[0]["match_score"] if matches else 0`. -/
def clipConfidence (match_list : List ClipResult) : ℚ :=
  match match_list with
  | [] => 0
  | record :: _ => record.match_score

/-- Embedding of the modality-selection step of
`extract_clip_from_user_query` (`tools.py` line 55):
`speech_matches[0] if speech_confidence > description_confidence else
description_matches[0]`. Indexing an empty list raises `IndexError`. -/
def extract_clip_selected_info (speech_matches description_matches : List ClipResult) :
    Except PyError ClipResult :=
  if clipConfidence description_matches < clipConfidence speech_matches then
    listIndex speech_matches 0
  else
    listIndex description_matches 0

/-- Embedding of `extract_clip_from_user_query` (`tools.py`): run the
speech and description searches with the configured top-k values, pick a
result by confidence, and cut the clip at its window. -/
def extract_clip_from_user_query (content_path : String)
    (speech_similarity : SoundRow → ℚ) (caption_similarity : VisualRow → ℚ)
    (sound_view : List SoundRow) (visual_view : List VisualRow)
    (speech_top_k caption_top_k : ℤ) (frame_time_buffer : ℚ)
    (destination_path : String) : Except PyError String :=
  let speech_matches := find_by_speech_content speech_similarity sound_view speech_top_k
  let description_matches :=
    find_by_description caption_similarity visual_view caption_top_k frame_time_buffer
  match extract_clip_selected_info speech_matches description_matches with
  | .error e => .error e
  | .ok selected_clip_info =>
    match create_media_clip content_path selected_clip_info.begin_time
        selected_clip_info.finish_time destination_path with
    | .error e => .error e
    | .ok extracted_clip => .ok extracted_clip.filename

/-- Embedding of `extract_clip_from_visual_query` (`tools.py`): run the
image search with the configured top-k, take result index 0, and cut the
clip at its window, passing `begin_time`/`finish_time` through unchanged. -/
def extract_clip_from_visual_query (content_path : String)
    (image_similarity : VisualRow → ℚ) (visual_view : List VisualRow)
    (image_top_k : ℤ) (frame_time_buffer : ℚ)
    (destination_path : String) : Except PyError MediaClip :=
  let visual_matches :=
    find_by_visual_content image_similarity visual_view image_top_k frame_time_buffer
  match listIndex visual_matches 0 with
  | .error e => .error e
  | .ok top_match =>
    create_media_clip content_path top_match.begin_time top_match.finish_time destination_path

/-- Python code-point comparison of strings (character lists): the order
used by the `max(registry_files)` call in `get_table_registry`. -/
def strLtB : List Char → List Char → Bool
  | [], [] => false
  | [], _ :: _ => true
  | _ :: _, [] => false
  | a :: as, b :: bs =>
    if a.val.toNat < b.val.toNat then true
    else if b.val.toNat < a.val.toNat then false
    else strLtB as bs

/-- True when the second character list is an initial segment of the
first: models Python `str.startswith`. -/
def hasPrefixB : List Char → List Char → Bool
  | _, [] => true
  | [], _ :: _ => false
  | a :: as, b :: bs => decide (a.val.toNat = b.val.toNat) && hasPrefixB as bs

/-- True when the second character list is a final segment of the first:
models Python `str.endswith`. -/
def hasSuffixB (s pat : List Char) : Bool :=
  hasPrefixB s.reverse pat.reverse

/-- Python `s < t` on strings. -/
def pyStrLt (s t : String) : Bool :=
  strLtB s.data t.data

/-- One step of Python `max` over strings: keep the current best unless
the next item is strictly greater. -/
def pyMaxFun (best f : String) : String :=
  if pyStrLt best f then f else best

/-- Python `max(l)` over a list of strings: `None` stands for the
`ValueError` on an empty input (never reached in `get_table_registry`,
which tests emptiness first). -/
def pyMaxList (l : List String) : Option String :=
  match l with
  | [] => none
  | x :: xs => some (xs.foldl pyMaxFun x)

/-- The registry-entry metadata persisted per media item
(`IndexedTableInfo` in `data_models.py`): all fields are strings (table
names and paths), so the pydantic JSON round trip
(`model_dump_json`/`json.loads`/constructor) is modelled as the
identity and snapshot contents hold these records directly. -/
structure IndexedTableInfo where
  media_identifier : String
  storage_cache : String
  content_table : String
  visual_segments_view : String
  sound_segments_view : String
  deriving DecidableEq, Repr

/-- The in-memory registry `MEDIA_INDEXES_STORAGE`: a Python dict modelled
as an association list with dict insertion semantics. -/
abbrev RegMap : Type := List (String × IndexedTableInfo)

/-- Python dict assignment `m[k] = v`: overwrite in place when the key is
present, append otherwise. -/
def dictInsert {β : Type} : List (String × β) → String → β → List (String × β)
  | [], k, v => [(k, v)]
  | (k0, v0) :: rest, k, v =>
    if k0 = k then (k, v) :: rest else (k0, v0) :: dictInsert rest k v

/-- Python dict lookup `m.get(k)` (and the membership test `k in m`):
the first binding of the key, `none` when absent. -/
def dictLookup {β : Type} : List (String × β) → String → Option β
  | [], _ => none
  | (k0, v0) :: rest, k => if k = k0 then some v0 else dictLookup rest k

/-- The `.storage_records` snapshot directory: filenames mapped to the
parsed registry contents of each JSON file. Writing `open(name, "w")`
overwrites the file with that name if it exists. -/
abbrev SnapshotDir : Type := List (String × RegMap)

/-- The filename test of `get_table_registry`:
`f.startswith("registry_") and f.endswith(".json")`. -/
def isRegistrySnapshotName (f : String) : Bool :=
  hasPrefixB f.data "registry_".data && hasSuffixB f.data ".json".data

/-- Embedding of `get_table_registry` (`table_manager.py`) on the first
read in a process (empty in-memory cache): list the registry directory
(`none` models a missing directory, whose `FileNotFoundError` is caught
and yields an empty registry), keep the `registry_*.json` files, pick the
one with the `max(...)` (lexicographically greatest) name, and parse it.
Later reads return the cached in-memory dict, which `lru_cache` keeps
aliased to the dict that `register_new_index` mutates. -/
def get_table_registry (dir : Option SnapshotDir) : RegMap :=
  match dir with
  | none => []
  | some dir_files =>
    let registry_files := (dir_files.map Prod.fst).filter isRegistrySnapshotName
    match pyMaxList registry_files with
    | none => []
    | some most_recent_file => (dictLookup dir_files most_recent_file).getD []

/-- Embedding of `register_new_index` (`table_manager.py`): build the
`IndexedTableInfo` (with `content_table = storage_cache + ".content"`),
overwrite the in-memory entry, and dump the entire current registry to a
new snapshot file named `registry_<datetime_string>.json` (the strftime
timestamp is the parameter `datetime_string`). -/
def register_new_index (mem : RegMap) (dir_files : SnapshotDir)
    (datetime_string : String) (media_identifier storage_cache
    visual_segments_name sound_segments_name : String) : RegMap × SnapshotDir :=
  let indexed_table_info : IndexedTableInfo :=
    { media_identifier := media_identifier
      storage_cache := storage_cache
      content_table := storage_cache ++ ".content"
      visual_segments_view := visual_segments_name
      sound_segments_view := sound_segments_name }
  let mem2 := dictInsert mem media_identifier indexed_table_info
  (mem2, dictInsert dir_files ("registry_" ++ datetime_string ++ ".json") mem2)

/-- The `IndexedTable` of `data_models.py`, with the live pixeltable
handles obtained from `pxt.get_table` represented by the table names they
resolve. -/
structure IndexedTable where
  media_identifier : String
  storage_cache : String
  content_table : String
  visual_segments_view : String
  sound_segments_view : String
  deriving DecidableEq, Repr

/-- Embedding of `IndexedTable.from_info` (`data_models.py`) applied to
the possibly-missing registry entry: `table_registry.get(id)` returns
`None` when the identifier is absent, and `from_info` then evaluates
`table_info.media_identifier` on `None`, raising `AttributeError`. -/
def IndexedTable.from_info (table_info : Option IndexedTableInfo) :
    Except PyError IndexedTable :=
  match table_info with
  | none => .error (.attributeError "NoneType object has no attribute media_identifier")
  | some info =>
    .ok { media_identifier := info.media_identifier
          storage_cache := info.storage_cache
          content_table := info.content_table
          visual_segments_view := info.visual_segments_view
          sound_segments_view := info.sound_segments_view }

/-- Embedding of `fetch_table` (`table_manager.py`): look the identifier
up in the registry (string-valued entries are parsed with `json.loads`,
modelled as already parsed) and hand the result, possibly `None`, to
`IndexedTable.from_info`. -/
def fetch_table (table_registry : RegMap) (media_identifier : String) :
    Except PyError IndexedTable :=
  IndexedTable.from_info (dictLookup table_registry media_identifier)

/-- A constructed `MediaSearchEngine` (`media_search_engine.py`). -/
structure MediaSearchEngine where
  media_identifier : String
  media_index : IndexedTable
  deriving DecidableEq, Repr

/-- Embedding of `MediaSearchEngine.__init__`: call `fetch_table` and
store the result. The guard `if not self.media_index: raise
ValueError(...)` in the source is unreachable: a successfully
constructed `IndexedTable` instance is always truthy in Python, and an
absent identifier makes `fetch_table` raise before the guard runs. -/
def MediaSearchEngine.construct (table_registry : RegMap)
    (media_identifier : String) : Except PyError MediaSearchEngine :=
  match fetch_table table_registry media_identifier with
  | .error e => .error e
  | .ok media_index =>
    .ok { media_identifier := media_identifier, media_index := media_index }

/-- External media environment for `media_tools.py`: whether a path
exists on disk, whether PyAV can open it, and whether the
`ffmpeg -c copy` transcode subprocess of a given source succeeds. -/
structure MediaEnv where
  file_on_disk : String → Bool
  av_opens : String → Bool
  ffmpeg_copy_ok : String → Bool

/-- The value returned by `transcode_media_file`: a path string, Python
`None`, or Python `False` (the missing-file branch returns `False` even
though the docstring says `None`). -/
inductive TranscodeReturn where
  | path (p : String)
  | noneVal
  | falseVal
  deriving DecidableEq, Repr

/-- Python truthiness of a `transcode_media_file` result, as tested by
`if processed_media_path:` in `insert_media`. -/
def TranscodeReturn.truthy : TranscodeReturn → Bool
  | .path p => !(p == "")
  | .noneVal => false
  | .falseVal => false

/-- The transcoded output path of `transcode_media_file`:
`Path(file_path).parent / ("transcoded_" + Path(file_path).name)`,
computed on character lists so that concrete instances evaluate.
When the path has no directory part, `Path(".") / name` renders without
the leading dot, matching pathlib. -/
def transcoded_file_path (file_path : String) : String :=
  let rev := file_path.data.reverse
  let name_rev := rev.takeWhile (fun c => decide (c ≠ '/'))
  let dir_rev := rev.dropWhile (fun c => decide (c ≠ '/'))
  ⟨dir_rev.reverse ++ ("transcoded_".data ++ name_rev.reverse)⟩

/-- Embedding of `transcode_media_file` (`media_tools.py`). The source
wraps the PyAV validation of `file_path` in `try/except/finally`; the
`try` block ends in `return str(file_path)` when the file opens, but the
`finally` block runs the ffmpeg transcode unconditionally and itself
returns on every control path, so the `try` return is always discarded:
the function returns the transcoded path when the transcode succeeds and
the output opens, and `None` otherwise - never the original path. -/
def transcode_media_file (env : MediaEnv) (file_path : String) : TranscodeReturn :=
  if env.file_on_disk file_path = false then
    .falseVal
  else
    let _try_return : Option TranscodeReturn :=
      if env.av_opens file_path then some (.path file_path) else none
    let transcoded_target := transcoded_file_path file_path
    if env.ffmpeg_copy_ok file_path then
      if env.av_opens transcoded_target then .path transcoded_target
      else .noneVal
    else .noneVal

/-- The process-wide state touched by the ingestion pipeline
(`media_analyzer.py` together with the registry of `table_manager.py`):
the in-memory registry dict after its one-time lazy load, the snapshot
directory, the number of storage namespaces allocated by
`_initialize_storage_structure`, whether `media_table` is set, and the
rows of `ContentTable` (the `media_file` column). -/
structure PipelineState where
  registry_mem : RegMap
  dir_files : SnapshotDir
  stores_created : ℕ
  media_table_ready : Bool
  content_rows : List String
  deriving DecidableEq, Repr

/-- Embedding of `MediaAnalyzer.insert_media`: fail with `ValueError`
when `media_table` is unset; otherwise validate via
`transcode_media_file` and, only when its result is truthy, insert
`{"media_file": media_path}` (the original path, not the processed one)
as the root row; in every non-error case return `True`. -/
def insert_media (env : MediaEnv) (st : PipelineState) (media_path : String) :
    Except PyError (PipelineState × Bool) :=
  if st.media_table_ready = false then
    .error (.valueError "Media table is not initialized. Call initialize_storage first.")
  else
    let processed_media_path := transcode_media_file env media_path
    if processed_media_path.truthy then
      .ok ({ st with content_rows := st.content_rows ++ [media_path] }, true)
    else
      .ok (st, true)

/-- Embedding of `analyze_media_content` (`tools.py`) together with the
`MediaAnalyzer.initialize_storage` call it makes: if the identifier is
already registered, return `False` without touching any state; otherwise
allocate a fresh storage namespace `storage_<uuid-suffix>` with its
content table and views, register it (which also writes a new snapshot
file), and run `insert_media`, returning its result (`True`). The fresh
uuid suffix and the strftime timestamp are parameters. -/
def analyze_media_content (env : MediaEnv) (st : PipelineState)
    (content_path : String) (uuid_suffix : String) (datetime_string : String) :
    Except PyError (PipelineState × Bool) :=
  if (dictLookup st.registry_mem content_path).isSome then
    .ok (st, false)
  else if content_path = "" then
    .error (.valueError "Media identifier cannot be empty.")
  else
    let cache_directory := "storage_" ++ uuid_suffix
    let content_table_name := cache_directory ++ ".content"
    let visual_segments_name := content_table_name ++ "_visuals"
    let sound_segments_name := content_table_name ++ "_audio_parts"
    let st1 : PipelineState :=
      { st with
        stores_created := st.stores_created + 1
        media_table_ready := true
        content_rows := [] }
    let registered := register_new_index st1.registry_mem st1.dir_files
      datetime_string content_path cache_directory visual_segments_name sound_segments_name
    let st2 : PipelineState :=
      { st1 with registry_mem := registered.1, dir_files := registered.2 }
    insert_media env st2 content_path


/-- Sample environment: every file exists, opens in PyAV, and transcodes
successfully. -/
def envAllOk : MediaEnv :=
  { file_on_disk := fun _ => true
    av_opens := fun _ => true
    ffmpeg_copy_ok := fun _ => true }

/-- Sample environment: the file exists on disk but neither opens in
PyAV nor survives the ffmpeg transcode - unreadable media. -/
def envUnreadable : MediaEnv :=
  { file_on_disk := fun _ => true
    av_opens := fun _ => false
    ffmpeg_copy_ok := fun _ => false }

/-- Sample pipeline state with an initialized media table and no rows. -/
def stReady : PipelineState :=
  { registry_mem := []
    dir_files := []
    stores_created := 1
    media_table_ready := true
    content_rows := [] }

/-- Sample pristine pipeline state: empty registry, no stores. -/
def stEmpty : PipelineState :=
  { registry_mem := []
    dir_files := []
    stores_created := 0
    media_table_ready := false
    content_rows := [] }

/-- The truncated ordered query keeps `min(top_k, row count)` rows. -/
theorem orderByDescLimit_length {α : Type} (score : α → ℚ) (rows : List α)
    (result_count : ℤ) :
    (orderByDescLimit score rows result_count).length =
      min result_count.toNat rows.length := by
  simp [orderByDescLimit, List.length_take, List.length_mergeSort]

/-- The truncated ordered query is sorted by non-increasing score. -/
theorem orderByDescLimit_sorted {α : Type} (score : α → ℚ) (rows : List α)
    (result_count : ℤ) :
    (orderByDescLimit score rows result_count).Pairwise
      (fun a b => score b ≤ score a) := by
  have hsorted := @List.sorted_mergeSort α
    (fun a b => decide (score b ≤ score a))
    (fun a b c h1 h2 => by
      simp only [decide_eq_true_eq] at h1 h2 ⊢
      exact le_trans h2 h1)
    (fun a b => by
      simp only [Bool.or_eq_true, decide_eq_true_eq]
      exact le_total (score b) (score a))
    rows
  have htake := List.Pairwise.sublist
    (List.take_sublist result_count.toNat _) hsorted
  refine htake.imp ?_
  intro a b h
  simpa using h

/-- Every row returned by the truncated ordered query comes from the
underlying view. -/
theorem orderByDescLimit_subset {α : Type} (score : α → ℚ) (rows : List α)
    (result_count : ℤ) {a : α} (h : a ∈ orderByDescLimit score rows result_count) :
    a ∈ rows := by
  have h2 : a ∈ rows.mergeSort (fun a b => decide (score b ≤ score a)) :=
    (List.take_sublist _ _).subset h
  exact (List.mergeSort_perm rows _).subset h2

/-- A non-positive top-k truncates the ordered query to nothing. -/
theorem orderByDescLimit_nonpos {α : Type} (score : α → ℚ) (rows : List α)
    (result_count : ℤ) (h : result_count ≤ 0) :
    orderByDescLimit score rows result_count = [] := by
  simp [orderByDescLimit, Int.toNat_of_nonpos h]

/-- Code-point string comparison is irreflexive. -/
theorem strLtB_irrefl (s : List Char) : strLtB s s = false := by
  induction s with
  | nil => rfl
  | cons a as ih => simp [strLtB, ih]

/-- Code-point string comparison is asymmetric. -/
theorem strLtB_asymm (s t : List Char) (h : strLtB s t = true) :
    strLtB t s = false := by
  induction s generalizing t with
  | nil =>
    cases t with
    | nil => rfl
    | cons b bs => rfl
  | cons a as ih =>
    cases t with
    | nil => simp [strLtB] at h
    | cons b bs =>
      simp only [strLtB] at h ⊢
      rcases Nat.lt_trichotomy a.val.toNat b.val.toNat with hlt | heq | hgt
      · simp [hlt, Nat.lt_asymm hlt]
      · have h1 : ¬ a.val.toNat < b.val.toNat := by omega
        have h2 : ¬ b.val.toNat < a.val.toNat := by omega
        rw [if_neg h1, if_neg h2] at h
        rw [if_neg h2, if_neg h1]
        exact ih bs h
      · rw [if_neg (Nat.lt_asymm hgt), if_pos hgt] at h
        cases h

/-- Python string comparison is irreflexive. -/
theorem pyStrLt_irrefl (s : String) : pyStrLt s s = false :=
  strLtB_irrefl s.data

/-- Python string comparison is asymmetric. -/
theorem pyStrLt_asymm (s t : String) (h : pyStrLt s t = true) :
    pyStrLt t s = false :=
  strLtB_asymm s.data t.data h

/-- Python `max` over a list containing a greatest element returns it. -/
theorem pyMaxList_eq_of_max (l : List String) (m : String) (hm : m ∈ l)
    (hmax : ∀ g ∈ l, g = m ∨ pyStrLt g m = true) :
    pyMaxList l = some m := by
  have hmm : pyMaxFun m m = m := by
    simp [pyMaxFun]
  have key : ∀ (ys : List String) (acc : String),
      (acc = m ∨ pyStrLt acc m = true) →
      (∀ g ∈ ys, g = m ∨ pyStrLt g m = true) →
      (m = acc ∨ m ∈ ys) →
      ys.foldl pyMaxFun acc = m := by
    intro ys
    induction ys with
    | nil =>
      intro acc _ _ hmem
      rcases hmem with h | h
      · simp [h.symm]
      · cases h
    | cons f fs ih =>
      intro acc hacc hall hmem
      have hf : f = m ∨ pyStrLt f m = true := hall f (by simp)
      have hfs : ∀ g ∈ fs, g = m ∨ pyStrLt g m = true :=
        fun g hg => hall g (by simp [hg])
      simp only [List.foldl_cons]
      have hacc2 : pyMaxFun acc f = m ∨ pyStrLt (pyMaxFun acc f) m = true := by
        unfold pyMaxFun
        by_cases hlt : pyStrLt acc f = true
        · rw [if_pos hlt]
          exact hf
        · rw [if_neg hlt]
          exact hacc
      have hxx : ∀ x : String, pyMaxFun x x = x := by
        intro x
        simp [pyMaxFun]
      have hmem2 : m = pyMaxFun acc f ∨ m ∈ fs := by
        rcases hmem with h | h
        · -- the accumulator is already the maximum and never moves past it
          left
          rcases hf with hfm | hflt
          · rw [← h, ← hfm]
            exact (hxx f).symm
          · have hnot : pyStrLt acc f = false := by
              rw [← h]
              exact pyStrLt_asymm f m hflt
            have hstay : pyMaxFun acc f = acc := by
              simp [pyMaxFun, hnot]
            rw [hstay]
            exact h
        · rcases List.mem_cons.mp h with h2 | h2
          · -- the maximum is the next element
            left
            by_cases hlt : pyStrLt acc f = true
            · have hmove : pyMaxFun acc f = f := by
                simp [pyMaxFun, hlt]
              rw [hmove]
              exact h2
            · rcases hacc with ha | ha
              · have hstay : pyMaxFun acc f = acc := by
                  simp [pyMaxFun, hlt]
                rw [hstay]
                exact ha.symm
              · exfalso
                rw [h2] at ha
                exact hlt ha
          · exact Or.inr h2
      exact ih (pyMaxFun acc f) hacc2 hfs hmem2
  cases l with
  | nil => cases hm
  | cons x xs =>
    simp only [pyMaxList]
    rcases List.mem_cons.mp hm with h | h
    · exact congrArg some (key xs x (Or.inl h.symm)
        (fun g hg => hmax g (by simp [hg])) (Or.inl h))
    · exact congrArg some (key xs x (hmax x (by simp))
        (fun g hg => hmax g (by simp [hg])) (Or.inr h))

/-- A list starts with any of its initial segments. -/
theorem hasPrefixB_append (p rest : List Char) :
    hasPrefixB (p ++ rest) p = true := by
  induction p with
  | nil =>
    cases rest with
    | nil => rfl
    | cons c cs => rfl
  | cons a as ih => simp [hasPrefixB, ih]

/-- Snapshot filenames produced by `register_new_index` pass the
`registry_*.json` filter of `get_table_registry`. -/
theorem isRegistrySnapshotName_mk (d : String) :
    isRegistrySnapshotName ("registry_" ++ d ++ ".json") = true := by
  have hdata : ("registry_" ++ d ++ ".json").data =
      "registry_".data ++ (d.data ++ ".json".data) := by
    simp [String.data_append]
  have h1 : hasPrefixB ("registry_" ++ d ++ ".json").data "registry_".data = true := by
    rw [hdata]
    exact hasPrefixB_append _ _
  have h2 : hasSuffixB ("registry_" ++ d ++ ".json").data ".json".data = true := by
    unfold hasSuffixB
    rw [hdata]
    have hrev : ("registry_".data ++ (d.data ++ ".json".data)).reverse =
        ".json".data.reverse ++ (d.data.reverse ++ "registry_".data.reverse) := by
      simp
    rw [hrev]
    exact hasPrefixB_append _ _
  unfold isRegistrySnapshotName
  rw [h1, h2]
  rfl

/-- Looking up the key just written into a Python dict returns the new
value. -/
theorem dictLookup_dictInsert_self {β : Type} (m : List (String × β)) (k : String)
    (v : β) : dictLookup (dictInsert m k v) k = some v := by
  induction m with
  | nil => simp [dictInsert, dictLookup]
  | cons kv rest ih =>
    obtain ⟨k0, v0⟩ := kv
    by_cases h : k0 = k
    · simp [dictInsert, h, dictLookup]
    · simp only [dictInsert, h, if_false, dictLookup]
      rw [if_neg (Ne.symm h)]
      exact ih

/-- Writing one key into a Python dict leaves other keys unchanged. -/
theorem dictLookup_dictInsert_ne {β : Type} (m : List (String × β)) (k k' : String)
    (v : β) (h : k' ≠ k) : dictLookup (dictInsert m k v) k' = dictLookup m k' := by
  induction m with
  | nil => simp [dictInsert, dictLookup, h]
  | cons kv rest ih =>
    obtain ⟨k0, v0⟩ := kv
    by_cases hk : k0 = k
    · subst hk
      simp [dictInsert, dictLookup, h]
    · simp only [dictInsert, hk, if_false, dictLookup]
      by_cases hk' : k' = k0
      · rw [if_pos hk', if_pos hk']
      · rw [if_neg hk', if_neg hk']
        exact ih

/-- Inserting a genuinely new key into a Python dict appends it. -/
theorem dictInsert_not_mem {β : Type} (m : List (String × β)) (k : String)
    (v : β) (h : k ∉ m.map Prod.fst) : dictInsert m k v = m ++ [(k, v)] := by
  induction m with
  | nil => rfl
  | cons kv rest ih =>
    obtain ⟨k0, v0⟩ := kv
    simp only [List.map_cons, List.mem_cons] at h
    push_neg at h
    simp [dictInsert, Ne.symm h.1, ih h.2]

/-- Dict lookup finds the value of a present key when keys are unique
(directory listings never repeat a filename). -/
theorem dictLookup_eq_some_of_mem_nodup {β : Type} (l : List (String × β))
    (k : String) (v : β) (hmem : (k, v) ∈ l) (hnd : (l.map Prod.fst).Nodup) :
    dictLookup l k = some v := by
  induction l with
  | nil => cases hmem
  | cons kv rest ih =>
    obtain ⟨k0, v0⟩ := kv
    simp only [List.map_cons, List.nodup_cons] at hnd
    rcases List.mem_cons.mp hmem with h | h
    · rw [Prod.mk.injEq] at h
      simp [dictLookup, h.1.symm, h.2]
    · have hne : k ≠ k0 := by
        intro hk
        exact hnd.1 (hk ▸ (List.mem_map.mpr ⟨(k, v), h, rfl⟩))
      simp only [dictLookup]
      rw [if_neg hne]
      exact ih h hnd.2

/-- Dict lookup skips a prefix that does not bind the key. -/
theorem dictLookup_append_of_not_mem {β : Type} (l1 l2 : List (String × β))
    (k : String) (h : k ∉ l1.map Prod.fst) :
    dictLookup (l1 ++ l2) k = dictLookup l2 k := by
  induction l1 with
  | nil => rfl
  | cons kv rest ih =>
    obtain ⟨k0, v0⟩ := kv
    simp only [List.map_cons, List.mem_cons] at h
    push_neg at h
    simp only [List.cons_append, dictLookup]
    rw [if_neg h.1]
    exact ih h.2

/-- C1: for every query, every view, and every integer top-k, each of
`find_by_speech_content`, `find_by_visual_content` and
`find_by_description` returns `min(top_k, number of annotated rows)`
results sorted by non-increasing `match_score`, and a non-positive top-k
yields the empty list without error. -/
theorem top_k_contract (speech_sim : SoundRow → ℚ) (image_sim caption_sim : VisualRow → ℚ)
    (sound_view : List SoundRow) (visual_view : List VisualRow) (k : ℤ) (b : ℚ) :
    ((find_by_speech_content speech_sim sound_view k).length =
        min k.toNat sound_view.length ∧
      (find_by_speech_content speech_sim sound_view k).Pairwise
        (fun r1 r2 => r2.match_score ≤ r1.match_score) ∧
      (k ≤ 0 → find_by_speech_content speech_sim sound_view k = [])) ∧
    ((find_by_visual_content image_sim visual_view k b).length =
        min k.toNat visual_view.length ∧
      (find_by_visual_content image_sim visual_view k b).Pairwise
        (fun r1 r2 => r2.match_score ≤ r1.match_score) ∧
      (k ≤ 0 → find_by_visual_content image_sim visual_view k b = [])) ∧
    ((find_by_description caption_sim visual_view k b).length =
        min k.toNat visual_view.length ∧
      (find_by_description caption_sim visual_view k b).Pairwise
        (fun r1 r2 => r2.match_score ≤ r1.match_score) ∧
      (k ≤ 0 → find_by_description caption_sim visual_view k b = [])) := by
  refine ⟨⟨?_, ?_, ?_⟩, ⟨?_, ?_, ?_⟩, ⟨?_, ?_, ?_⟩⟩
  · simp [find_by_speech_content, orderByDescLimit_length]
  · rw [find_by_speech_content, List.pairwise_map]
    exact orderByDescLimit_sorted speech_sim sound_view k
  · intro hk
    simp [find_by_speech_content, orderByDescLimit_nonpos _ _ _ hk]
  · simp [find_by_visual_content, orderByDescLimit_length]
  · rw [find_by_visual_content, List.pairwise_map]
    exact orderByDescLimit_sorted image_sim visual_view k
  · intro hk
    simp [find_by_visual_content, orderByDescLimit_nonpos _ _ _ hk]
  · simp [find_by_description, orderByDescLimit_length]
  · rw [find_by_description, List.pairwise_map]
    exact orderByDescLimit_sorted caption_sim visual_view k
  · intro hk
    simp [find_by_description, orderByDescLimit_nonpos _ _ _ hk]

/-- Witness for C1: at a one-row view and `top_k = -1`, each operation
returns the empty list; lengths for `top_k = 2` follow the min rule. -/
theorem top_k_contract_witness :
    find_by_speech_content (fun _ => 1) [⟨0, 10, "talk"⟩] (-1) = [] ∧
    find_by_visual_content (fun _ => 1) [⟨500, "cap"⟩] (-1) 5 = [] ∧
    find_by_description (fun _ => 1) [⟨500, "cap"⟩] (-1) 5 = [] ∧
    (find_by_speech_content (fun _ => 1) [⟨0, 10, "talk"⟩] 2).length =
      min (Int.toNat 2) 1 := by
  have h := top_k_contract (fun _ => 1) (fun _ => 1) (fun _ => 1)
    [⟨0, 10, "talk"⟩] [⟨500, "cap"⟩] (-1) 5
  have h2 := top_k_contract (fun _ => 1) (fun _ => 1) (fun _ => 1)
    [⟨0, 10, "talk"⟩] [⟨500, "cap"⟩] 2 5
  exact ⟨h.1.2.2 (by decide), h.2.1.2.2 (by decide), h.2.2.2.2 (by decide),
    h2.1.1⟩

/-- C5: every result of the frame-based searches has
`begin_time = t_ms/1000 - b` and `finish_time = t_ms/1000 + b` for the
timestamp `t_ms` of some frame of the view, hence
`finish_time - begin_time = 2 * b` exactly. -/
theorem frame_window_symmetry (image_sim caption_sim : VisualRow → ℚ)
    (visual_view : List VisualRow) (k : ℤ) (b : ℚ) :
    (∀ r ∈ find_by_visual_content image_sim visual_view k b,
      r.finish_time - r.begin_time = 2 * b ∧
      ∃ row ∈ visual_view, r.begin_time = row.pos_msec / 1000 - b ∧
        r.finish_time = row.pos_msec / 1000 + b) ∧
    (∀ r ∈ find_by_description caption_sim visual_view k b,
      r.finish_time - r.begin_time = 2 * b ∧
      ∃ row ∈ visual_view, r.begin_time = row.pos_msec / 1000 - b ∧
        r.finish_time = row.pos_msec / 1000 + b) := by
  constructor
  · intro r hr
    obtain ⟨record, hrec, hfr⟩ := List.mem_map.mp hr
    subst hfr
    refine ⟨by ring, record, orderByDescLimit_subset _ _ _ hrec, rfl, rfl⟩
  · intro r hr
    obtain ⟨record, hrec, hfr⟩ := List.mem_map.mp hr
    subst hfr
    refine ⟨by ring, record, orderByDescLimit_subset _ _ _ hrec, rfl, rfl⟩

/-- Witness for C5: the single frame at 500 ms with buffer 5 yields the
window from 0.5 - 5 to 0.5 + 5, whose width is exactly 10. -/
theorem frame_window_symmetry_witness :
    ((⟨500 / 1000 - 5, 500 / 1000 + 5, 1⟩ : ClipResult) ∈
      find_by_visual_content (fun _ => 1) [⟨500, "cap"⟩] 1 5) ∧
    ((500 : ℚ) / 1000 + 5) - ((500 : ℚ) / 1000 - 5) = 2 * 5 := by
  have hmem : (⟨500 / 1000 - 5, 500 / 1000 + 5, 1⟩ : ClipResult) ∈
      find_by_visual_content (fun _ => 1) [⟨500, "cap"⟩] 1 5 := by
    simp [find_by_visual_content, orderByDescLimit, List.mergeSort_singleton]
  exact ⟨hmem,
    ((frame_window_symmetry (fun _ => 1) (fun _ => 1) [⟨500, "cap"⟩] 1 5).1 _ hmem).1⟩

/-- C9 counterexample: with one speech result of score 0 and no
description results, the claim says the top description result is
selected (0 does not strictly exceed the empty-modality score 0), but
the code indexes the empty description list and raises IndexError, so no
result is selected at all. -/
theorem clip_selection_empty_description_crash :
    extract_clip_selected_info [⟨0, 1, 0⟩] [] = .error .indexError := by
  simp [extract_clip_selected_info, clipConfidence, listIndex, lt_irrefl]

/-- C9 amended: an empty modality is scored 0 and index 0 of the chosen
list is selected - the speech branch is chosen iff the speech confidence
strictly exceeds the description confidence (so with both lists nonempty
the top speech result wins exactly on strictly greater score, ties going
to description; with empty speech and a non-negative top description
score the top description result wins) - but choosing a branch whose
list is empty raises IndexError instead of selecting the other modality:
so with empty description and top speech score at most 0, with empty
speech and negative top description score, and with both lists empty,
the call raises IndexError. -/
theorem clip_selection_amended (s d : ClipResult) (ss ds : List ClipResult) :
    (d.match_score < s.match_score →
      extract_clip_selected_info (s :: ss) (d :: ds) = .ok s) ∧
    (s.match_score ≤ d.match_score →
      extract_clip_selected_info (s :: ss) (d :: ds) = .ok d) ∧
    (0 ≤ d.match_score →
      extract_clip_selected_info [] (d :: ds) = .ok d) ∧
    (d.match_score < 0 →
      extract_clip_selected_info [] (d :: ds) = .error .indexError) ∧
    (s.match_score ≤ 0 →
      extract_clip_selected_info (s :: ss) [] = .error .indexError) ∧
    (0 < s.match_score →
      extract_clip_selected_info (s :: ss) [] = .ok s) ∧
    extract_clip_selected_info ([] : List ClipResult) [] = .error .indexError := by
  refine ⟨?_, ?_, ?_, ?_, ?_, ?_, ?_⟩
  · intro h
    rw [extract_clip_selected_info, if_pos]
    · rfl
    · simpa [clipConfidence] using h
  · intro h
    rw [extract_clip_selected_info, if_neg]
    · rfl
    · simpa [clipConfidence] using not_lt.mpr h
  · intro h
    rw [extract_clip_selected_info, if_neg]
    · rfl
    · simpa [clipConfidence] using not_lt.mpr h
  · intro h
    rw [extract_clip_selected_info, if_pos]
    · rfl
    · simpa [clipConfidence] using h
  · intro h
    rw [extract_clip_selected_info, if_neg]
    · rfl
    · simpa [clipConfidence] using not_lt.mpr h
  · intro h
    rw [extract_clip_selected_info, if_pos]
    · rfl
    · simpa [clipConfidence] using h
  · rw [extract_clip_selected_info, if_neg]
    · rfl
    · simp [clipConfidence]

/-- Witness for C9 amended: strict excess selects speech, a tie selects
description, empty speech with non-negative description score selects
description, and empty description with speech score 0 raises. -/
theorem clip_selection_amended_witness :
    extract_clip_selected_info [⟨0, 1, 2⟩] [⟨5, 6, 1⟩] = .ok ⟨0, 1, 2⟩ ∧
    extract_clip_selected_info [⟨0, 1, 1⟩] [⟨5, 6, 1⟩] = .ok ⟨5, 6, 1⟩ ∧
    extract_clip_selected_info [] [⟨5, 6, 1⟩] = .ok ⟨5, 6, 1⟩ ∧
    extract_clip_selected_info [⟨0, 1, 0⟩] [] = .error .indexError := by
  refine ⟨?_, ?_, ?_, ?_⟩
  · exact (clip_selection_amended ⟨0, 1, 2⟩ ⟨5, 6, 1⟩ [] []).1
      (by show (1 : ℚ) < 2; norm_num)
  · exact (clip_selection_amended ⟨0, 1, 1⟩ ⟨5, 6, 1⟩ [] []).2.1
      (by show (1 : ℚ) ≤ 1; norm_num)
  · exact (clip_selection_amended ⟨0, 1, 1⟩ ⟨5, 6, 1⟩ [] []).2.2.1
      (by show (0 : ℚ) ≤ 1; norm_num)
  · exact (clip_selection_amended ⟨0, 1, 0⟩ ⟨5, 6, 1⟩ [] []).2.2.2.2.1
      (by show (0 : ℚ) ≤ 0; norm_num)

/-- C10: when the top frame-based result exists, its window comes from
some frame of the view with `begin_time = t_ms/1000 - b` (negative
whenever `t_ms/1000 < b`, with no clamping), and
`extract_clip_from_visual_query` passes that window unchanged to
`create_media_clip`, which accepts it whenever `begin_time <
finish_time` - in particular a negative `begin_time` is accepted. -/
theorem negative_window_passthrough (image_sim : VisualRow → ℚ)
    (visual_view : List VisualRow) (k : ℤ) (b : ℚ)
    (content_path dest : String) (r : ClipResult) (rest : List ClipResult)
    (h : find_by_visual_content image_sim visual_view k b = r :: rest) :
    (∃ row ∈ visual_view,
      r.begin_time = row.pos_msec / 1000 - b ∧
      r.finish_time = row.pos_msec / 1000 + b ∧
      (row.pos_msec / 1000 < b → r.begin_time < 0)) ∧
    extract_clip_from_visual_query content_path image_sim visual_view k b dest =
      create_media_clip content_path r.begin_time r.finish_time dest ∧
    (0 < b →
      extract_clip_from_visual_query content_path image_sim visual_view k b dest =
        .ok ⟨dest, r.begin_time, r.finish_time⟩) := by
  have hr : r ∈ find_by_visual_content image_sim visual_view k b := by
    rw [h]
    exact List.mem_cons_self _ _
  obtain ⟨record, hrec, hfr⟩ := List.mem_map.mp hr
  have hbegin : r.begin_time = record.pos_msec / 1000 - b := by rw [← hfr]
  have hfinish : r.finish_time = record.pos_msec / 1000 + b := by rw [← hfr]
  have hpass : extract_clip_from_visual_query content_path image_sim visual_view k b dest =
      create_media_clip content_path r.begin_time r.finish_time dest := by
    rw [extract_clip_from_visual_query]
    rw [h]
    rfl
  refine ⟨⟨record, orderByDescLimit_subset _ _ _ hrec, hbegin, hfinish, ?_⟩, hpass, ?_⟩
  · intro hlt
    rw [hbegin]
    linarith
  · intro hb
    rw [hpass, create_media_clip, if_neg]
    rw [hbegin, hfinish]
    linarith

/-- Witness for C10: the frame at 500 ms with buffer 5 gives a negative
begin time, and the clip is still cut from that negative start. -/
theorem negative_window_passthrough_witness :
    ((500 : ℚ) / 1000 - 5 < 0) ∧
    extract_clip_from_visual_query "video.mp4" (fun _ => 1) [⟨500, "cap"⟩] 1 5
      "clip.mp4" = .ok ⟨"clip.mp4", 500 / 1000 - 5, 500 / 1000 + 5⟩ := by
  have hfind : find_by_visual_content (fun _ => 1) [⟨500, "cap"⟩] 1 5 =
      [⟨500 / 1000 - 5, 500 / 1000 + 5, 1⟩] := by
    simp [find_by_visual_content, orderByDescLimit, List.mergeSort_singleton]
  have main := negative_window_passthrough (fun _ => 1) [⟨500, "cap"⟩] 1 5
    "video.mp4" "clip.mp4" ⟨500 / 1000 - 5, 500 / 1000 + 5, 1⟩ [] hfind
  obtain ⟨⟨row, hrow, hbegin, _, himp⟩, _, hok⟩ := main
  have hrow500 : row = ⟨500, "cap"⟩ := by
    simpa using hrow
  constructor
  · have := himp (by rw [hrow500]; norm_num)
    simpa [hbegin, hrow500] using this
  · exact hok (by norm_num)

/-- C3: constructing the search engine for an identifier absent from the
registry fails - but with `AttributeError` raised inside
`IndexedTable.from_info` on the `None` entry, not with the `ValueError`
naming the identifier that `MediaSearchEngine.__init__` documents and
whose raise statement is unreachable. No engine is returned. -/
theorem search_unregistered_raises_attribute_error :
    MediaSearchEngine.construct [] "missing.mp4" =
      .error (.attributeError "NoneType object has no attribute media_identifier") := by
  rfl

/-- C4: inserting a media file that is unopenable even after the
transcode attempt raises nothing and returns `True` - success is
reported - while no row is added to the content table. -/
theorem unreadable_media_reports_success :
    insert_media envUnreadable stReady "bad.mp4" = .ok (stReady, true) ∧
    stReady.content_rows = [] := by
  exact ⟨rfl, rfl⟩

/-- C8: for a source file that PyAV opens as-is, `transcode_media_file`
still performs the ffmpeg transcode (its `finally` block overrides the
`return str(file_path)` of the `try` block) and returns the transcoded
path, not the original; and the root row inserted by `insert_media`
references the original `media_path`, not the path the validation
returned. -/
theorem openable_media_still_transcoded :
    transcode_media_file envAllOk "media/sample.mp4" =
      .path "media/transcoded_sample.mp4" ∧
    ("media/transcoded_sample.mp4" : String) ≠ "media/sample.mp4" ∧
    insert_media envAllOk stReady "media/sample.mp4" =
      .ok ({ stReady with content_rows := ["media/sample.mp4"] }, true) := by
  refine ⟨rfl, by decide, rfl⟩

/-- C2: ingesting a fresh identifier reports `True` (freshly indexed),
and a second `analyze_media_content` call with the same identifier
returns `False` (already indexed, a distinct signal) while leaving the
state untouched: no new storage namespace, no registry write, no
snapshot file. -/
theorem ingest_idempotent (env : MediaEnv) (st : PipelineState)
    (content_path u1 d1 u2 d2 : String)
    (hfresh : dictLookup st.registry_mem content_path = none)
    (hne : content_path ≠ "")
    (st1 : PipelineState) (r1 : Bool)
    (h1 : analyze_media_content env st content_path u1 d1 = .ok (st1, r1)) :
    r1 = true ∧
    analyze_media_content env st1 content_path u2 d2 = .ok (st1, false) := by
  simp only [analyze_media_content, hfresh, Option.isSome_none, Bool.false_eq_true,
    if_false, hne, ite_false, insert_media] at h1
  simp only [Bool.true_eq_false, if_false] at h1
  split at h1 <;>
  · simp only [Except.ok.injEq, Prod.mk.injEq] at h1
    obtain ⟨hst, hr⟩ := h1
    subst hst
    refine ⟨hr.symm, ?_⟩
    simp [analyze_media_content, register_new_index, dictLookup_dictInsert_self]

/-- Witness for C2: a concrete fresh ingestion returns `True` and
registers the store; the repeated call returns `False` with the state
unchanged. -/
theorem ingest_idempotent_witness :
    analyze_media_content envAllOk stEmpty "v.mp4" "ab12" "2025-01-0101:00:00" =
      .ok ({ registry_mem := [("v.mp4",
              ⟨"v.mp4", "storage_ab12", "storage_ab12.content",
                "storage_ab12.content_visuals",
                "storage_ab12.content_audio_parts"⟩)]
             dir_files := [("registry_2025-01-0101:00:00.json",
              [("v.mp4",
                ⟨"v.mp4", "storage_ab12", "storage_ab12.content",
                  "storage_ab12.content_visuals",
                  "storage_ab12.content_audio_parts"⟩)])]
             stores_created := 1
             media_table_ready := true
             content_rows := ["v.mp4"] }, true) ∧
    analyze_media_content envAllOk
      { registry_mem := [("v.mp4",
          ⟨"v.mp4", "storage_ab12", "storage_ab12.content",
            "storage_ab12.content_visuals",
            "storage_ab12.content_audio_parts"⟩)]
        dir_files := [("registry_2025-01-0101:00:00.json",
          [("v.mp4",
            ⟨"v.mp4", "storage_ab12", "storage_ab12.content",
              "storage_ab12.content_visuals",
              "storage_ab12.content_audio_parts"⟩)])]
        stores_created := 1
        media_table_ready := true
        content_rows := ["v.mp4"] } "v.mp4" "cd34" "2025-01-0201:00:00" =
      .ok ({ registry_mem := [("v.mp4",
              ⟨"v.mp4", "storage_ab12", "storage_ab12.content",
                "storage_ab12.content_visuals",
                "storage_ab12.content_audio_parts"⟩)]
             dir_files := [("registry_2025-01-0101:00:00.json",
              [("v.mp4",
                ⟨"v.mp4", "storage_ab12", "storage_ab12.content",
                  "storage_ab12.content_visuals",
                  "storage_ab12.content_audio_parts"⟩)])]
             stores_created := 1
             media_table_ready := true
             content_rows := ["v.mp4"] }, false) := by
  have h1 : analyze_media_content envAllOk stEmpty "v.mp4" "ab12" "2025-01-0101:00:00" =
      .ok ({ registry_mem := [("v.mp4",
              ⟨"v.mp4", "storage_ab12", "storage_ab12.content",
                "storage_ab12.content_visuals",
                "storage_ab12.content_audio_parts"⟩)]
             dir_files := [("registry_2025-01-0101:00:00.json",
              [("v.mp4",
                ⟨"v.mp4", "storage_ab12", "storage_ab12.content",
                  "storage_ab12.content_visuals",
                  "storage_ab12.content_audio_parts"⟩)])]
             stores_created := 1
             media_table_ready := true
             content_rows := ["v.mp4"] }, true) := rfl
  exact ⟨h1, (ingest_idempotent envAllOk stEmpty "v.mp4" "ab12" "2025-01-0101:00:00"
    "cd34" "2025-01-0201:00:00" rfl (by decide) _ _ h1).2⟩

/-- Loading from a directory whose greatest matching filename is `fname`
parses exactly the file named `fname`. -/
theorem get_table_registry_some_eq (dir_files : SnapshotDir) (fname : String)
    (h : pyMaxList ((dir_files.map Prod.fst).filter isRegistrySnapshotName) =
      some fname) :
    get_table_registry (some dir_files) = (dictLookup dir_files fname).getD [] := by
  simp only [get_table_registry]
  rw [h]

/-- C6: registering an entry and then loading the registry afresh from
the snapshot directory (process restart) returns the entry just
registered; since the entire registry is dumped into the new snapshot,
every other previously registered identifier is also present with its
entry unchanged; and `fetch_table` on the reloaded registry resolves the
new entry. The hypothesis states that the new snapshot filename is
strictly greater than every existing filename (the wall-clock timestamp
is fresh). -/
theorem registry_round_trip (mem : RegMap) (dir : SnapshotDir)
    (d id cache vname sname : String)
    (hfresh : ∀ f ∈ dir.map Prod.fst,
      pyStrLt f ("registry_" ++ d ++ ".json") = true) :
    dictLookup (get_table_registry
        (some (register_new_index mem dir d id cache vname sname).2)) id =
      some ⟨id, cache, cache ++ ".content", vname, sname⟩ ∧
    (∀ id2 info2, id2 ≠ id → dictLookup mem id2 = some info2 →
      dictLookup (get_table_registry
        (some (register_new_index mem dir d id cache vname sname).2)) id2 =
        some info2) ∧
    fetch_table (get_table_registry
        (some (register_new_index mem dir d id cache vname sname).2)) id =
      .ok ⟨id, cache, cache ++ ".content", vname, sname⟩ := by
  have hnot : ("registry_" ++ d ++ ".json") ∉ dir.map Prod.fst := by
    intro hmem
    have hlt := hfresh _ hmem
    rw [pyStrLt_irrefl] at hlt
    cases hlt
  have happend : dictInsert dir ("registry_" ++ d ++ ".json")
      (dictInsert mem id ⟨id, cache, cache ++ ".content", vname, sname⟩) =
      dir ++ [("registry_" ++ d ++ ".json",
        dictInsert mem id ⟨id, cache, cache ++ ".content", vname, sname⟩)] :=
    dictInsert_not_mem _ _ _ hnot
  have hfilter : ((dir ++ [("registry_" ++ d ++ ".json",
        dictInsert mem id ⟨id, cache, cache ++ ".content", vname, sname⟩)]).map
          Prod.fst).filter isRegistrySnapshotName =
      (dir.map Prod.fst).filter isRegistrySnapshotName ++
        ["registry_" ++ d ++ ".json"] := by
    rw [List.map_append, List.filter_append]
    simp [isRegistrySnapshotName_mk d]
  have hmax : pyMaxList (((dir ++ [("registry_" ++ d ++ ".json",
        dictInsert mem id ⟨id, cache, cache ++ ".content", vname, sname⟩)]).map
          Prod.fst).filter isRegistrySnapshotName) =
      some ("registry_" ++ d ++ ".json") := by
    rw [hfilter]
    apply pyMaxList_eq_of_max
    · simp
    · intro g hg
      rcases List.mem_append.mp hg with hg1 | hg2
      · exact Or.inr (hfresh g (List.mem_of_mem_filter hg1))
      · left
        simpa using hg2
  have hmain : get_table_registry
      (some (register_new_index mem dir d id cache vname sname).2) =
      dictInsert mem id ⟨id, cache, cache ++ ".content", vname, sname⟩ := by
    have hre : (register_new_index mem dir d id cache vname sname).2 =
        dir ++ [("registry_" ++ d ++ ".json",
          dictInsert mem id ⟨id, cache, cache ++ ".content", vname, sname⟩)] := by
      rw [← happend]
      rfl
    rw [hre]
    rw [get_table_registry_some_eq _ _ hmax]
    rw [dictLookup_append_of_not_mem _ _ _ hnot]
    simp [dictLookup]
  refine ⟨?_, ?_, ?_⟩
  · rw [hmain]
    exact dictLookup_dictInsert_self mem id _
  · intro id2 info2 hne hold
    rw [hmain, dictLookup_dictInsert_ne mem id id2 _ hne]
    exact hold
  · rw [fetch_table, hmain, dictLookup_dictInsert_self]
    rfl

/-- Witness for C6: registering `new.mp4` over a registry already
holding `old.mp4` and reloading from disk returns the new entry and
preserves the old one. -/
theorem registry_round_trip_witness :
    dictLookup (get_table_registry (some (register_new_index
        [("old.mp4", ⟨"old.mp4", "storage_zz99", "storage_zz99.content", "v0", "s0"⟩)]
        [("registry_2024-01-0101:00:00.json",
          [("old.mp4", ⟨"old.mp4", "storage_zz99", "storage_zz99.content", "v0", "s0"⟩)])]
        "2025-01-0101:00:00" "new.mp4" "storage_ab12" "vv" "ss").2)) "new.mp4" =
      some ⟨"new.mp4", "storage_ab12", "storage_ab12" ++ ".content", "vv", "ss"⟩ ∧
    dictLookup (get_table_registry (some (register_new_index
        [("old.mp4", ⟨"old.mp4", "storage_zz99", "storage_zz99.content", "v0", "s0"⟩)]
        [("registry_2024-01-0101:00:00.json",
          [("old.mp4", ⟨"old.mp4", "storage_zz99", "storage_zz99.content", "v0", "s0"⟩)])]
        "2025-01-0101:00:00" "new.mp4" "storage_ab12" "vv" "ss").2)) "old.mp4" =
      some ⟨"old.mp4", "storage_zz99", "storage_zz99.content", "v0", "s0"⟩ := by
  have h := registry_round_trip
    [("old.mp4", ⟨"old.mp4", "storage_zz99", "storage_zz99.content", "v0", "s0"⟩)]
    [("registry_2024-01-0101:00:00.json",
      [("old.mp4", ⟨"old.mp4", "storage_zz99", "storage_zz99.content", "v0", "s0"⟩)])]
    "2025-01-0101:00:00" "new.mp4" "storage_ab12" "vv" "ss" (by decide)
  exact ⟨h.1, h.2.1 "old.mp4" _ (by decide) rfl⟩

/-- C7: on the first registry read, a missing snapshot directory or an
absence of `registry_*.json` files yields the empty registry without
error; otherwise exactly the snapshot with the lexicographically
greatest matching filename is loaded and parsed. -/
theorem get_table_registry_loads_latest :
    get_table_registry none = [] ∧
    (∀ dir_files : SnapshotDir,
      (dir_files.map Prod.fst).filter isRegistrySnapshotName = [] →
      get_table_registry (some dir_files) = []) ∧
    (∀ (dir_files : SnapshotDir) (fname : String) (content : RegMap),
      (fname, content) ∈ dir_files →
      (dir_files.map Prod.fst).Nodup →
      isRegistrySnapshotName fname = true →
      (∀ g ∈ (dir_files.map Prod.fst).filter isRegistrySnapshotName,
        g = fname ∨ pyStrLt g fname = true) →
      get_table_registry (some dir_files) = content) := by
  refine ⟨rfl, ?_, ?_⟩
  · intro dir_files hempty
    simp only [get_table_registry]
    rw [hempty]
    rfl
  · intro dir_files fname content hmem hnd hpat hmax
    have hfmem : fname ∈ (dir_files.map Prod.fst).filter isRegistrySnapshotName :=
      List.mem_filter.mpr ⟨List.mem_map.mpr ⟨(fname, content), hmem, rfl⟩, hpat⟩
    have hmaxeq : pyMaxList ((dir_files.map Prod.fst).filter isRegistrySnapshotName) =
        some fname := pyMaxList_eq_of_max _ _ hfmem hmax
    rw [get_table_registry_some_eq _ _ hmaxeq]
    rw [dictLookup_eq_some_of_mem_nodup dir_files fname content hmem hnd]
    rfl

/-- Witness for C7: among a foreign file and two snapshots, the 2025
snapshot (lexicographically greatest matching name) is loaded; a missing
directory gives the empty registry. -/
theorem get_table_registry_loads_latest_witness :
    get_table_registry none = [] ∧
    get_table_registry (some
      [("notes.txt", []),
       ("registry_2024-05-0109:00:00.json",
         [("a.mp4", ⟨"a.mp4", "storage_aa11", "storage_aa11.content", "va", "sa"⟩)]),
       ("registry_2025-06-0109:00:00.json",
         [("b.mp4", ⟨"b.mp4", "storage_bb22", "storage_bb22.content", "vb", "sb"⟩)])]) =
      [("b.mp4", ⟨"b.mp4", "storage_bb22", "storage_bb22.content", "vb", "sb"⟩)] := by
  refine ⟨get_table_registry_loads_latest.1, ?_⟩
  exact get_table_registry_loads_latest.2.2
    [("notes.txt", []),
     ("registry_2024-05-0109:00:00.json",
       [("a.mp4", ⟨"a.mp4", "storage_aa11", "storage_aa11.content", "va", "sa"⟩)]),
     ("registry_2025-06-0109:00:00.json",
       [("b.mp4", ⟨"b.mp4", "storage_bb22", "storage_bb22.content", "vb", "sb"⟩)])]
    "registry_2025-06-0109:00:00.json"
    [("b.mp4", ⟨"b.mp4", "storage_bb22", "storage_bb22.content", "vb", "sb"⟩)]
    (by decide) (by decide) (by decide) (by decide)
